import Mathlib

/-!
Verification development for the sdwan-health-monitor repository.

Shallow embedding of the parts of the code the claims are about:
 - `sdwan_monitor.py`: the `DeviceHealth`, `Alarm` and `FabricHealth` data
   classes, the `DeviceHealth.health_status` classifier, the per-device
   normalization performed inside `SDWANMonitor.get_devices`, the TTL cache
   `SDWANMonitor._get_cached`, and `SDWANMonitor.get_fabric_health`.
 - `lib/alerter.py`: the `Alert` record and the `AlertManager` state
   (`active_alerts`, `alert_history`) with `evaluate_device`,
   `evaluate_tunnel`, `acknowledge_alert` and `clear_acknowledged`.

Modelling conventions:
 - Python numbers are rationals (`ℚ` for floats, `ℤ` for ints); the numeric
   comparisons exercised by the claims are exact on the inputs involved.
 - Wall-clock time (`datetime.now()` / `time.time()`) is passed in as an
   explicit `now : ℚ` parameter; timestamp fields are `ℚ`.
 - Untyped upstream JSON values are `PyVal` (None / str / number); raw
   mappings are association lists `PyDict`.  `dict.get` and Python
   truthiness (`x or 0`) are modelled explicitly.
 - Python object identity of `Alert` records matters (the same object is
   appended to both `active_alerts` and `alert_history`), so the
   `AlertManager` state is a store (list) of alert records plus two lists of
   store indices, mirroring the Python heap.
 - Fallible operations (`float(...)`/`int(...)` coercions, `KeyError` on a
   missing threshold key, a raising fetcher) return `Except String`.
 - Notification dispatch (`_send_notification`) swallows all exceptions and
   touches no alerter state, so it is not modelled.
-/

/-- An untrusted Python value as it appears in upstream JSON payloads:
`None`, a string, or a number (int or float, both modelled as `ℚ`,
matching Python's `1 == 1.0`). -/
inductive PyVal where
  | vNone : PyVal
  | vStr (s : String) : PyVal
  | vNum (q : ℚ) : PyVal
deriving DecidableEq

/-- A Python `dict` with string keys, as an association list. -/
abbrev PyDict := List (String × PyVal)

/-- First value bound to `key`, if any (Python `key in d` / `d[key]`). -/
def dictGet? {α : Type} : List (String × α) → String → Option α
  | [], _ => none
  | (k, v) :: rest, key => if k = key then some v else dictGet? rest key

/-- Python `d.get(key, dflt)`. -/
def dget (d : PyDict) (key : String) (dflt : PyVal) : PyVal :=
  (dictGet? d key).getD dflt

/-- Python `d[key] = v`: replace the first binding of `key`, or append. -/
def dictSet {α : Type} : List (String × α) → String → α → List (String × α)
  | [], key, v => [(key, v)]
  | (k, w) :: rest, key, v =>
      if k = key then (key, v) :: rest else (k, w) :: dictSet rest key v

/-- Python truthiness of a `PyVal` (`None`, `""` and `0` are falsy). -/
def pyTruthy : PyVal → Bool
  | PyVal.vNone => false
  | PyVal.vStr s => s ≠ ""
  | PyVal.vNum q => q ≠ 0

/-- Python `x or d`. -/
def pyOr (x d : PyVal) : PyVal := if pyTruthy x then x else d

/-- Value of a list of decimal digit characters. -/
def digitsVal (cs : List Char) : Nat :=
  cs.foldl (fun n c => n * 10 + (c.toNat - 48)) 0

/-- Parse a Python `float(...)`-acceptable decimal literal:
optional sign, then `digits`, `digits.`, `digits.digits` or `.digits`.
(Exponent/`inf`/`nan` forms and surrounding whitespace, which the claims
never exercise, are not modelled and simply fail to parse.) -/
def strToRat? (s : String) : Option ℚ :=
  let cs := s.toList
  let signed : ℤ × List Char :=
    match cs with
    | '-' :: rest => (-1, rest)
    | '+' :: rest => (1, rest)
    | _ => (1, cs)
  let sign := signed.1
  let body := signed.2
  match body.splitOn '.' with
  | [whole] =>
      if whole ≠ [] ∧ whole.all Char.isDigit then
        some ((sign : ℚ) * (digitsVal whole : ℚ))
      else none
  | [whole, frac] =>
      if (whole ++ frac) ≠ [] ∧ whole.all Char.isDigit ∧ frac.all Char.isDigit then
        some ((sign : ℚ) *
          ((digitsVal whole : ℚ) + (digitsVal frac : ℚ) / ((10 : ℚ) ^ frac.length)))
      else none
  | _ => none

/-- Parse a Python `int(...)`-acceptable integer literal: optional sign and
at least one digit. -/
def strToInt? (s : String) : Option ℤ :=
  let cs := s.toList
  let signed : ℤ × List Char :=
    match cs with
    | '-' :: rest => (-1, rest)
    | '+' :: rest => (1, rest)
    | _ => (1, cs)
  if signed.2 ≠ [] ∧ signed.2.all Char.isDigit then
    some (signed.1 * (digitsVal signed.2 : ℤ))
  else none

/-- Python `int(float)`: truncation toward zero. -/
def ratTrunc (q : ℚ) : ℤ :=
  if 0 ≤ q then ⌊q⌋ else -⌊-q⌋

/-- Python `float(x)`: numbers pass through, strings are parsed
(`ValueError` on failure), `None` is a `TypeError`. -/
def pyFloat : PyVal → Except String ℚ
  | PyVal.vNum q => Except.ok q
  | PyVal.vStr s =>
      match strToRat? s with
      | some q => Except.ok q
      | none => Except.error ("ValueError")
  | PyVal.vNone => Except.error ("TypeError")

/-- Python `int(x)`: floats truncate toward zero, strings are parsed as
integer literals (`ValueError` on failure), `None` is a `TypeError`. -/
def pyInt : PyVal → Except String ℤ
  | PyVal.vNum q => Except.ok (ratTrunc q)
  | PyVal.vStr s =>
      match strToInt? s with
      | some n => Except.ok n
      | none => Except.error ("ValueError")
  | PyVal.vNone => Except.error ("TypeError")

/-- Python `str(x)`.  (Float rendering differs from Python's `repr`; no
claim inspects a stringified number.) -/
def pyStr : PyVal → String
  | PyVal.vStr s => s
  | PyVal.vNone => "None"
  | PyVal.vNum q => toString q.num ++ (if q.den = 1 then "" else "/" ++ toString q.den)

/-- `sdwan_monitor.py` dataclass `DeviceHealth`.  String-annotated identity
fields keep the raw `PyVal` the constructor call received (Python
dataclasses do not coerce); `site_id` goes through an explicit `str(...)`
in `get_devices`, so it is a `String`. -/
structure DeviceHealth where
  device_id : PyVal
  hostname : PyVal
  site_id : String
  status : PyVal
  reachability : PyVal
  cpu_percent : ℚ := 0
  memory_percent : ℚ := 0
  disk_percent : ℚ := 0
  control_connections : ℤ := 0
  control_connections_expected : ℤ := 2
  tunnels_up : ℤ := 0
  tunnels_total : ℤ := 0
  uptime : PyVal := PyVal.vStr ""
  version : PyVal := PyVal.vStr ""
  model : PyVal := PyVal.vStr ""
  board_serial : PyVal := PyVal.vStr ""
  last_updated : ℚ := 0
deriving DecidableEq

/-- `DeviceHealth.health_status` (sdwan_monitor.py lines 130-141).  Note
that the first rule tests the `status` field, not `reachability`. -/
def DeviceHealth.health_status (d : DeviceHealth) : String :=
  if d.status ≠ PyVal.vStr ("reachable") then "critical"
  else if 90 ≤ d.cpu_percent ∨ 95 ≤ d.memory_percent then "critical"
  else if 70 ≤ d.cpu_percent ∨ 75 ≤ d.memory_percent then "warning"
  else if d.control_connections < d.control_connections_expected then "warning"
  else "healthy"

/-- `sdwan_monitor.py` dataclass `Alarm`. -/
structure Alarm where
  alarm_id : PyVal
  severity : PyVal
  type_ : PyVal
  rule_name : PyVal
  component : PyVal
  device_id : PyVal
  hostname : PyVal
  message : PyVal
  timestamp : ℚ
  acknowledged : Bool := false
deriving DecidableEq

/-- `sdwan_monitor.py` dataclass `FabricHealth` with its field defaults. -/
structure FabricHealth where
  total_devices : ℤ := 0
  healthy_devices : ℤ := 0
  warning_devices : ℤ := 0
  critical_devices : ℤ := 0
  unreachable_devices : ℤ := 0
  total_tunnels : ℤ := 0
  tunnels_up : ℤ := 0
  tunnels_down : ℤ := 0
  total_alarms : ℤ := 0
  critical_alarms : ℤ := 0
  major_alarms : ℤ := 0
  minor_alarms : ℤ := 0
  sla_compliance : ℚ := 100
  last_updated : ℚ := 0
deriving DecidableEq

/-- A fresh `FabricHealth()` with dataclass defaults. -/
def FabricHealth.init : FabricHealth := {}

/-- Body of the per-device loop in `get_fabric_health`
(sdwan_monitor.py lines 407-420). -/
def deviceStep (h : FabricHealth) (d : DeviceHealth) : FabricHealth :=
  let h1 :=
    if d.health_status = "healthy" then
      { h with healthy_devices := h.healthy_devices + 1 }
    else if d.health_status = "warning" then
      { h with warning_devices := h.warning_devices + 1 }
    else if d.health_status = "critical" then
      { h with critical_devices := h.critical_devices + 1 }
    else h
  let h2 :=
    if d.reachability ≠ PyVal.vStr ("reachable") then
      { h1 with unreachable_devices := h1.unreachable_devices + 1 }
    else h1
  { h2 with total_tunnels := h2.total_tunnels + d.tunnels_total,
            tunnels_up := h2.tunnels_up + d.tunnels_up }

/-- Body of the per-alarm loop in `get_fabric_health`
(sdwan_monitor.py lines 427-433). -/
def alarmStep (h : FabricHealth) (a : Alarm) : FabricHealth :=
  if a.severity = PyVal.vStr ("Critical") then
    { h with critical_alarms := h.critical_alarms + 1 }
  else if a.severity = PyVal.vStr ("Major") then
    { h with major_alarms := h.major_alarms + 1 }
  else if a.severity = PyVal.vStr ("Minor") then
    { h with minor_alarms := h.minor_alarms + 1 }
  else h

/-- `get_fabric_health` up to and including the `tunnels_down` assignment
(sdwan_monitor.py lines 401-422); the device list is the (cached) result of
`get_devices`, passed in explicitly. -/
def fabricAfterDevices (devices : List DeviceHealth) : FabricHealth :=
  let h := { FabricHealth.init with total_devices := (devices.length : ℤ) }
  let h := devices.foldl deviceStep h
  { h with tunnels_down := h.total_tunnels - h.tunnels_up }

/-- `get_fabric_health` after the alarm loop (sdwan_monitor.py
lines 424-433). -/
def fabricAfterAlarms (devices : List DeviceHealth) (alarms : List Alarm) :
    FabricHealth :=
  let h := fabricAfterDevices devices
  let h := { h with total_alarms := (alarms.length : ℤ) }
  alarms.foldl alarmStep h

/-- `SDWANMonitor.get_fabric_health` (sdwan_monitor.py lines 399-440),
as a function of the fetched device and alarm collections and the clock. -/
def getFabricHealth (devices : List DeviceHealth) (alarms : List Alarm)
    (now : ℚ) : FabricHealth :=
  let h := fabricAfterAlarms devices alarms
  let h :=
    if 0 < h.total_tunnels then
      { h with sla_compliance :=
          (h.tunnels_up : ℚ) / (h.total_tunnels : ℚ) * 100 }
    else h
  { h with last_updated := now }

/-- State of the `SDWANMonitor` cache: `_cache` and `_cache_time`
(sdwan_monitor.py lines 372-373), value type left abstract (Python stores
`Any`). -/
structure CacheState (V : Type) where
  cache : List (String × V)
  ctime : List (String × ℚ)
deriving DecidableEq

/-- `ttl = ttl or self._cache_ttl` (sdwan_monitor.py line 388):
a `None` or `0` (falsy) argument falls back to `_cache_ttl = 30`. -/
def ttlResolve (ttlArg : Option ℚ) : ℚ :=
  match ttlArg with
  | none => 30
  | some t => if t = 0 then 30 else t

/-- `SDWANMonitor._get_cached` (sdwan_monitor.py lines 386-397).  The
fetcher is represented by its outcome `fetchResult` (the value it returns,
or the exception it raises); the returned `Bool` records whether the
fetcher was invoked on this call. -/
def getCached {V : Type} (st : CacheState V) (key : String)
    (ttlArg : Option ℚ) (now : ℚ) (fetchResult : Except String V) :
    Except String (V × Bool × CacheState V) :=
  let ttl := ttlResolve ttlArg
  match dictGet? st.cache key with
  | some v =>
      if now - ((dictGet? st.ctime key).getD 0) < ttl then
        Except.ok (v, false, st)
      else
        match fetchResult with
        | Except.ok d =>
            Except.ok (d, true,
              ⟨dictSet st.cache key d, dictSet st.ctime key now⟩)
        | Except.error e => Except.error e
  | none =>
      match fetchResult with
      | Except.ok d =>
          Except.ok (d, true,
            ⟨dictSet st.cache key d, dictSet st.ctime key now⟩)
      | Except.error e => Except.error e

/-- The data interpolated into an alert's f-string message
(lib/alerter.py).  Kept symbolic: no claim inspects the rendered text, and
this preserves exactly the information the message carries. -/
inductive AlertMsg where
  | cpuMsg (value thresh : ℚ) : AlertMsg
  | memMsg (value thresh : ℚ) : AlertMsg
  | reachMsg (statusText : String) : AlertMsg
  | tunnelLossMsg (value : ℚ) : AlertMsg
  | tunnelLatencyMsg (value : ℚ) : AlertMsg
deriving DecidableEq, Inhabited

/-- `lib/alerter.py` dataclass `Alert`. -/
structure Alert where
  device : String
  severity : String
  message : AlertMsg
  metric : String := ""
  value : ℚ := 0
  threshold : ℚ := 0
  timestamp : ℚ := 0
  acknowledged : Bool := false
deriving DecidableEq

instance : Inhabited Alert :=
  ⟨{ device := "", severity := "", message := AlertMsg.reachMsg ("") }⟩

/-- `lib/collector.py` dataclass `DeviceMetrics` (the argument type
`AlertManager.evaluate_device` is exercised with, e.g. in the tests). -/
structure DeviceMetrics where
  hostname : String := ""
  system_ip : String := ""
  site_id : String := ""
  reachability : String := "unknown"
  model : String := ""
  version : String := ""
  cpu : ℚ := 0
  memory : ℚ := 0
  uptime : String := ""
deriving DecidableEq

/-- `lib/collector.py` dataclass `TunnelMetrics`. -/
structure TunnelMetrics where
  source_ip : String := ""
  dest_ip : String := ""
  color : String := ""
  state : String := "down"
  latency : ℚ := 0
  loss : ℚ := 0
  jitter : ℚ := 0
  tx_rate : ℚ := 0
  rx_rate : ℚ := 0
deriving DecidableEq

/-- One tier of the threshold configuration: a Python dict that may hold
`warning` and `critical` keys. -/
structure TierThresh where
  warning : Option ℚ := none
  critical : Option ℚ := none
deriving DecidableEq

/-- `{}` — a tier with neither key (the default of `thresholds.get(metric, {})`). -/
def TierThresh.empty : TierThresh := {}

/-- The `AlertManager.thresholds` dict: each metric key may be absent. -/
structure Thresholds where
  cpu : Option TierThresh := none
  memory : Option TierThresh := none
  tunnel_loss : Option TierThresh := none
  tunnel_latency : Option TierThresh := none
deriving DecidableEq

/-- `AlertManager` alert state.  Python appends the *same* `Alert` object
to `active_alerts` and `alert_history`, so the embedding keeps one store of
alert records and represents the two lists as lists of store indices
(object references). -/
structure AlertState where
  store : List Alert := []
  active : List Nat := []
  history : List Nat := []
deriving DecidableEq

/-- A fresh `AlertManager`'s alert state. -/
def AlertState.empty : AlertState := {}

/-- Dereference a store index (always in range in reachable states). -/
def storeGet (store : List Alert) (sid : Nat) : Alert :=
  (store.get? sid).getD default

/-- `for alert in new_alerts: active_alerts.append(alert);
alert_history.append(alert)` (lib/alerter.py lines 86-89). -/
def pushBoth (st : AlertState) (new : List Alert) : AlertState :=
  new.foldl
    (fun s a =>
      ⟨s.store ++ [a], s.active ++ [s.store.length], s.history ++ [s.store.length]⟩)
    st

/-- `for alert in new_alerts: active_alerts.append(alert)` — the
`evaluate_tunnel` loop (lib/alerter.py lines 114-116), which does *not*
touch `alert_history`. -/
def pushActive (st : AlertState) (new : List Alert) : AlertState :=
  new.foldl
    (fun s a => ⟨s.store ++ [a], s.active ++ [s.store.length], s.history⟩)
    st

/-- The CPU check of `evaluate_device` (lib/alerter.py lines 48-61).
`thresholds.get("cpu", {}).get("critical", 90)` guards the comparison, but
the message f-string indexes `cpu_thresh["critical"]`, which raises
`KeyError` when the branch is taken with the key absent. -/
def cpuCheck (t : Thresholds) (d : DeviceMetrics) (now : ℚ) :
    Except String (List Alert) :=
  let cfg := t.cpu.getD TierThresh.empty
  if cfg.critical.getD 90 ≤ d.cpu then
    match cfg.critical with
    | some c =>
        Except.ok [{ device := d.hostname, severity := "critical",
                     message := AlertMsg.cpuMsg d.cpu c, metric := "cpu",
                     value := d.cpu, threshold := c, timestamp := now }]
    | none => Except.error ("KeyError")
  else if cfg.warning.getD 70 ≤ d.cpu then
    match cfg.warning with
    | some w =>
        Except.ok [{ device := d.hostname, severity := "warning",
                     message := AlertMsg.cpuMsg d.cpu w, metric := "cpu",
                     value := d.cpu, threshold := w, timestamp := now }]
    | none => Except.error ("KeyError")
  else Except.ok []

/-- The memory check of `evaluate_device` (lib/alerter.py lines 63-76);
defaults are `critical = 90`, `warning = 75`. -/
def memCheck (t : Thresholds) (d : DeviceMetrics) (now : ℚ) :
    Except String (List Alert) :=
  let cfg := t.memory.getD TierThresh.empty
  if cfg.critical.getD 90 ≤ d.memory then
    match cfg.critical with
    | some c =>
        Except.ok [{ device := d.hostname, severity := "critical",
                     message := AlertMsg.memMsg d.memory c, metric := "memory",
                     value := d.memory, threshold := c, timestamp := now }]
    | none => Except.error ("KeyError")
  else if cfg.warning.getD 75 ≤ d.memory then
    match cfg.warning with
    | some w =>
        Except.ok [{ device := d.hostname, severity := "warning",
                     message := AlertMsg.memMsg d.memory w, metric := "memory",
                     value := d.memory, threshold := w, timestamp := now }]
    | none => Except.error ("KeyError")
  else Except.ok []

/-- The reachability check of `evaluate_device` (lib/alerter.py
lines 78-84). -/
def reachCheck (d : DeviceMetrics) (now : ℚ) : List Alert :=
  if d.reachability ≠ "reachable" then
    [{ device := d.hostname, severity := "critical",
       message := AlertMsg.reachMsg d.reachability, metric := "reachability",
       value := 0, threshold := 1, timestamp := now }]
  else []

/-- `AlertManager.evaluate_device` (lib/alerter.py lines 44-91): collects
the cpu, memory and reachability alerts in order, then appends each to both
`active_alerts` and `alert_history`, and returns the new-alert list. -/
def evaluateDevice (t : Thresholds) (d : DeviceMetrics) (now : ℚ)
    (st : AlertState) : Except String (List Alert × AlertState) := do
  let ca ← cpuCheck t d now
  let ma ← memCheck t d now
  let ra := reachCheck d now
  let new := ca ++ ma ++ ra
  return (new, pushBoth st new)

/-- `AlertManager.evaluate_tunnel` (lib/alerter.py lines 93-118): loss and
latency critical checks (no warning tier, no `threshold` field set), then
appends each alert to `active_alerts` only. -/
def evaluateTunnel (t : Thresholds) (tun : TunnelMetrics) (now : ℚ)
    (st : AlertState) : List Alert × AlertState :=
  let tname := tun.source_ip ++ " -> " ++ tun.dest_ip
  let lossAlerts :=
    if (t.tunnel_loss.getD TierThresh.empty).critical.getD 5 ≤ tun.loss then
      [{ device := tname, severity := "critical",
         message := AlertMsg.tunnelLossMsg tun.loss, metric := "tunnel_loss",
         value := tun.loss, timestamp := now }]
    else []
  let latAlerts :=
    if (t.tunnel_latency.getD TierThresh.empty).critical.getD 300 ≤ tun.latency then
      [{ device := tname, severity := "critical",
         message := AlertMsg.tunnelLatencyMsg tun.latency,
         metric := "tunnel_latency", value := tun.latency, timestamp := now }]
    else []
  let new := lossAlerts ++ latAlerts
  (new, pushActive st new)

/-- `AlertManager.acknowledge_alert` (lib/alerter.py lines 141-144):
`if 0 <= index < len(active_alerts): active_alerts[index].acknowledged =
True` — an in-place mutation of the referenced alert object. -/
def acknowledgeAlert (st : AlertState) (index : ℤ) : AlertState :=
  if 0 ≤ index ∧ index < (st.active.length : ℤ) then
    match st.active.get? index.toNat with
    | some sid =>
        { st with store :=
            st.store.set sid { storeGet st.store sid with acknowledged := true } }
    | none => st
  else st

/-- `AlertManager.clear_acknowledged` (lib/alerter.py lines 146-148):
rebuilds `active_alerts` keeping the unacknowledged ones; `alert_history`
is untouched. -/
def clearAcknowledged (st : AlertState) : AlertState :=
  { st with active :=
      st.active.filter (fun sid => !(storeGet st.store sid).acknowledged) }

/-- The per-device normalization inside the `fetch` closure of
`SDWANMonitor.get_devices` (sdwan_monitor.py lines 452-472): `raw` is the
record from `/device`, `status` the matching record from `/device/monitor`
(an empty dict when there is no match).  Only the numeric coercions can
fail; they are evaluated in the source's argument order. -/
def normalizeDevice (raw status : PyDict) (now : ℚ) :
    Except String DeviceHealth := do
  let device_id := dget raw ("deviceId") (dget raw ("system-ip") (PyVal.vStr ""))
  let cpu ← pyFloat (pyOr (dget status ("cpuLoad") (dget raw ("cpu-load") (PyVal.vNum 0))) (PyVal.vNum 0))
  let mem ← pyFloat (pyOr (dget status ("memUsage") (dget raw ("mem-usage") (PyVal.vNum 0))) (PyVal.vNum 0))
  let disk ← pyFloat (pyOr (dget status ("diskUsage") (dget raw ("disk-usage") (PyVal.vNum 0))) (PyVal.vNum 0))
  let cc ← pyInt (pyOr (dget status ("controlConnections") (dget raw ("controlConnections") (PyVal.vNum 0))) (PyVal.vNum 0))
  let tup ← pyInt (pyOr (dget status ("omp-peers-up") (dget raw ("bfd-sessions-up") (PyVal.vNum 0))) (PyVal.vNum 0))
  let ttot ← pyInt (pyOr (dget status ("omp-peers") (dget raw ("bfd-sessions") (PyVal.vNum 0))) (PyVal.vNum 0))
  return { device_id := device_id,
           hostname := dget raw ("host-name") (dget raw ("hostname") (PyVal.vStr "Unknown")),
           site_id := pyStr (dget raw ("site-id") (PyVal.vStr "")),
           status := dget raw ("status") (dget raw ("reachability") (PyVal.vStr "unknown")),
           reachability := dget raw ("reachability") (PyVal.vStr "unknown"),
           cpu_percent := cpu,
           memory_percent := mem,
           disk_percent := disk,
           control_connections := cc,
           control_connections_expected := 2,
           tunnels_up := tup,
           tunnels_total := ttot,
           uptime := dget raw ("uptime-date") (dget raw ("uptime") (PyVal.vStr "")),
           version := dget raw ("version") (PyVal.vStr ""),
           model := dget raw ("device-model") (dget raw ("model") (PyVal.vStr "")),
           board_serial := dget raw ("board-serial") (dget raw ("serialNumber") (PyVal.vStr "")),
           last_updated := now }

/-- All six numeric coercions of `normalizeDevice` succeed on `raw`/`status`
(true in particular whenever each of those fields is absent, falsy, or an
actual number). -/
def numericOk (raw status : PyDict) : Bool :=
  (pyFloat (pyOr (dget status ("cpuLoad") (dget raw ("cpu-load") (PyVal.vNum 0))) (PyVal.vNum 0))).isOk &&
  (pyFloat (pyOr (dget status ("memUsage") (dget raw ("mem-usage") (PyVal.vNum 0))) (PyVal.vNum 0))).isOk &&
  (pyFloat (pyOr (dget status ("diskUsage") (dget raw ("disk-usage") (PyVal.vNum 0))) (PyVal.vNum 0))).isOk &&
  (pyInt (pyOr (dget status ("controlConnections") (dget raw ("controlConnections") (PyVal.vNum 0))) (PyVal.vNum 0))).isOk &&
  (pyInt (pyOr (dget status ("omp-peers-up") (dget raw ("bfd-sessions-up") (PyVal.vNum 0))) (PyVal.vNum 0))).isOk &&
  (pyInt (pyOr (dget status ("omp-peers") (dget raw ("bfd-sessions") (PyVal.vNum 0))) (PyVal.vNum 0))).isOk

/-- The memory check of `evaluate_device` takes no `KeyError` branch on
this device: the `critical`/`warning` key is present whenever its tier
fires (vacuously true when neither fires). -/
def memKeysOk (t : Thresholds) (d : DeviceMetrics) : Bool :=
  let cfg := t.memory.getD TierThresh.empty
  if cfg.critical.getD 90 ≤ d.memory then cfg.critical.isSome
  else if cfg.warning.getD 75 ≤ d.memory then cfg.warning.isSome
  else true

/-- The threshold table of the repository's test suite
(`tests/test_monitor.py`). -/
def thresholds0 : Thresholds :=
  { cpu := some { warning := some 70, critical := some 90 },
    memory := some { warning := some 75, critical := some 90 },
    tunnel_loss := some { warning := some 1, critical := some 5 },
    tunnel_latency := some { warning := some 100, critical := some 300 } }

/-- `DeviceMetrics(hostname="test-router", cpu=95.0, memory=50.0,
reachability="reachable")` from `test_cpu_critical_alert`. -/
def dev95 : DeviceMetrics :=
  { hostname := "test-router", reachability := "reachable",
    cpu := 95, memory := 50 }

/-- `TunnelMetrics(source_ip="10.0.0.1", dest_ip="10.0.0.2", loss=8.0,
latency=50)` from `test_tunnel_loss_alert`. -/
def tun8 : TunnelMetrics :=
  { source_ip := "10.0.0.1", dest_ip := "10.0.0.2", loss := 8, latency := 50 }

/-- Alerter state after one `evaluate_device` call on `dev95` from a fresh
manager (one critical cpu alert, shared by active and history). -/
def c2state : AlertState :=
  match evaluateDevice thresholds0 dev95 0 AlertState.empty with
  | Except.ok pr => pr.2
  | Except.error _ => AlertState.empty

/-- A concrete unacknowledged alert. -/
def baseAlert : Alert :=
  { device := "edge-1", severity := "warning",
    message := AlertMsg.memMsg 80 75, metric := "memory",
    value := 80, threshold := 75, timestamp := 0 }

/-- A manager state holding one alert, shared by active and history. -/
def oneAlertState : AlertState :=
  { store := [baseAlert], active := [0], history := [0] }

/-- A `DeviceHealth` whose `status` says reachable while `reachability`
says unreachable (constructible from a raw record carrying both keys). -/
def dev3 : DeviceHealth :=
  { device_id := PyVal.vStr ("10.9.9.9"), hostname := PyVal.vStr ("edge-9"),
    site_id := "900", status := PyVal.vStr ("reachable"),
    reachability := PyVal.vStr ("unreachable"), cpu_percent := 10,
    memory_percent := 10, control_connections := 2 }

/-- A cache holding a previously fetched device list under key
`devices`, fetched at time 0. -/
def c5cache : CacheState (List String) :=
  { cache := [("devices", ["vedge-1"])], ctime := [("devices", 0)] }

/-- A raw device record whose `cpu-load` is a non-numeric string. -/
def rawBad : PyDict := [("cpu-load", PyVal.vStr ("abc"))]

/-- A device reporting 842 of 847 tunnels up. -/
def devTun : DeviceHealth :=
  { device_id := PyVal.vStr ("10.1.1.1"),
    hostname := PyVal.vStr ("DC-vEdge-01"), site_id := "100",
    status := PyVal.vStr ("reachable"),
    reachability := PyVal.vStr ("reachable"),
    tunnels_up := 842, tunnels_total := 847 }


/-- The critical cpu alert `evaluate_device` builds for device `d` at
threshold `c` (lib/alerter.py lines 51-55). -/
def cpuCritAlert (d : DeviceMetrics) (c now : ℚ) : Alert :=
  { device := d.hostname, severity := "critical",
    message := AlertMsg.cpuMsg d.cpu c, metric := "cpu",
    value := d.cpu, threshold := c, timestamp := now }


theorem dictGet?_dictSet_self {α : Type} (d : List (String × α)) (k : String)
    (v : α) : dictGet? (dictSet d k v) k = some v := by
  induction d with
  | nil => simp [dictSet, dictGet?]
  | cons hd tl ih =>
      obtain ⟨k0, v0⟩ := hd
      by_cases hk : k0 = k
      · simp [dictSet, hk, dictGet?]
      · simp [dictSet, hk, dictGet?, ih]

theorem listGet?_set_self {α : Type} (l : List α) (i : Nat) (a : α)
    (h : i < l.length) : (l.set i a).get? i = some a := by
  induction l generalizing i with
  | nil => simp at h
  | cons hd tl ih =>
      cases i with
      | zero => simp
      | succ n =>
          simp only [List.set, List.get?]
          exact ih n (by simpa using h)

theorem storeGet_set_self (l : List Alert) (i : Nat) (a : Alert)
    (h : i < l.length) : storeGet (l.set i a) i = a := by
  unfold storeGet
  rw [listGet?_set_self l i a h]
  rfl

theorem exceptOk_of_isOk {ε α : Type} (e : Except ε α) (h : e.isOk = true) :
    ∃ v, e = Except.ok v := by
  cases e with
  | ok v => exact ⟨v, rfl⟩
  | error _ => simp [Except.isOk, Except.toBool] at h

theorem health_status_mem (d : DeviceHealth) :
    d.health_status = "healthy" ∨ d.health_status = "warning" ∨
      d.health_status = "critical" := by
  unfold DeviceHealth.health_status
  split
  · exact Or.inr (Or.inr rfl)
  split
  · exact Or.inr (Or.inr rfl)
  split
  · exact Or.inr (Or.inl rfl)
  split
  · exact Or.inr (Or.inl rfl)
  · exact Or.inl rfl

theorem deviceStep_sum (h : FabricHealth) (d : DeviceHealth) :
    (deviceStep h d).healthy_devices + (deviceStep h d).warning_devices +
        (deviceStep h d).critical_devices
      = h.healthy_devices + h.warning_devices + h.critical_devices + 1 := by
  unfold deviceStep
  rcases health_status_mem d with hc | hc | hc <;>
    simp only [hc] <;> split <;> simp <;> ring

theorem deviceStep_total (h : FabricHealth) (d : DeviceHealth) :
    (deviceStep h d).total_devices = h.total_devices := by
  unfold deviceStep
  rcases health_status_mem d with hc | hc | hc <;>
    simp only [hc] <;> split <;> simp

theorem deviceStep_sla (h : FabricHealth) (d : DeviceHealth) :
    (deviceStep h d).sla_compliance = h.sla_compliance := by
  unfold deviceStep
  rcases health_status_mem d with hc | hc | hc <;>
    simp only [hc] <;> split <;> simp

theorem deviceFold_sum (ds : List DeviceHealth) (h : FabricHealth) :
    (ds.foldl deviceStep h).healthy_devices +
        (ds.foldl deviceStep h).warning_devices +
        (ds.foldl deviceStep h).critical_devices
      = h.healthy_devices + h.warning_devices + h.critical_devices +
        (ds.length : ℤ) := by
  induction ds generalizing h with
  | nil => simp
  | cons d tl ih =>
      simp only [List.foldl, List.length_cons]
      rw [ih (deviceStep h d), deviceStep_sum]
      push_cast
      ring

theorem deviceFold_total (ds : List DeviceHealth) (h : FabricHealth) :
    (ds.foldl deviceStep h).total_devices = h.total_devices := by
  induction ds generalizing h with
  | nil => rfl
  | cons d tl ih =>
      simp only [List.foldl]
      rw [ih (deviceStep h d), deviceStep_total]

theorem deviceFold_sla (ds : List DeviceHealth) (h : FabricHealth) :
    (ds.foldl deviceStep h).sla_compliance = h.sla_compliance := by
  induction ds generalizing h with
  | nil => rfl
  | cons d tl ih =>
      simp only [List.foldl]
      rw [ih (deviceStep h d), deviceStep_sla]

theorem alarmStep_frame (h : FabricHealth) (a : Alarm) :
    (alarmStep h a).healthy_devices = h.healthy_devices ∧
    (alarmStep h a).warning_devices = h.warning_devices ∧
    (alarmStep h a).critical_devices = h.critical_devices ∧
    (alarmStep h a).total_devices = h.total_devices ∧
    (alarmStep h a).total_tunnels = h.total_tunnels ∧
    (alarmStep h a).tunnels_up = h.tunnels_up ∧
    (alarmStep h a).tunnels_down = h.tunnels_down ∧
    (alarmStep h a).sla_compliance = h.sla_compliance := by
  unfold alarmStep
  split
  · exact ⟨rfl, rfl, rfl, rfl, rfl, rfl, rfl, rfl⟩
  split
  · exact ⟨rfl, rfl, rfl, rfl, rfl, rfl, rfl, rfl⟩
  split
  · exact ⟨rfl, rfl, rfl, rfl, rfl, rfl, rfl, rfl⟩
  · exact ⟨rfl, rfl, rfl, rfl, rfl, rfl, rfl, rfl⟩

theorem alarmFold_frame (as : List Alarm) (h : FabricHealth) :
    (as.foldl alarmStep h).healthy_devices = h.healthy_devices ∧
    (as.foldl alarmStep h).warning_devices = h.warning_devices ∧
    (as.foldl alarmStep h).critical_devices = h.critical_devices ∧
    (as.foldl alarmStep h).total_devices = h.total_devices ∧
    (as.foldl alarmStep h).total_tunnels = h.total_tunnels ∧
    (as.foldl alarmStep h).tunnels_up = h.tunnels_up ∧
    (as.foldl alarmStep h).tunnels_down = h.tunnels_down ∧
    (as.foldl alarmStep h).sla_compliance = h.sla_compliance := by
  induction as generalizing h with
  | nil => exact ⟨rfl, rfl, rfl, rfl, rfl, rfl, rfl, rfl⟩
  | cons a tl ih =>
      simp only [List.foldl]
      obtain ⟨e1, e2, e3, e4, e5, e6, e7, e8⟩ := ih (alarmStep h a)
      obtain ⟨f1, f2, f3, f4, f5, f6, f7, f8⟩ := alarmStep_frame h a
      exact ⟨e1.trans f1, e2.trans f2, e3.trans f3, e4.trans f4,
             e5.trans f5, e6.trans f6, e7.trans f7, e8.trans f8⟩

theorem memCheck_ok (t : Thresholds) (d : DeviceMetrics) (now : ℚ)
    (h : memKeysOk t d = true) :
    ∃ ms, memCheck t d now = Except.ok ms ∧
      ms.filter (fun a => a.metric == "cpu") = [] := by
  unfold memKeysOk at h
  unfold memCheck
  by_cases h1 : (t.memory.getD TierThresh.empty).critical.getD 90 ≤ d.memory
  · rw [if_pos h1] at h ⊢
    obtain ⟨c, hc⟩ := Option.isSome_iff_exists.mp h
    rw [hc]
    exact ⟨_, rfl, by simp⟩
  · rw [if_neg h1] at h ⊢
    by_cases h2 : (t.memory.getD TierThresh.empty).warning.getD 75 ≤ d.memory
    · rw [if_pos h2] at h ⊢
      obtain ⟨w, hw⟩ := Option.isSome_iff_exists.mp h
      rw [hw]
      exact ⟨_, rfl, by simp⟩
    · rw [if_neg h2]
      exact ⟨[], rfl, rfl⟩

theorem reachCheck_no_cpu (d : DeviceMetrics) (now : ℚ) :
    (reachCheck d now).filter (fun a => a.metric == "cpu") = [] := by
  unfold reachCheck
  split
  · simp
  · rfl

theorem fabricAfterDevices_facts (ds : List DeviceHealth) :
    (fabricAfterDevices ds).healthy_devices
        + (fabricAfterDevices ds).warning_devices
        + (fabricAfterDevices ds).critical_devices
      = (fabricAfterDevices ds).total_devices ∧
    (fabricAfterDevices ds).tunnels_down
      = (fabricAfterDevices ds).total_tunnels
        - (fabricAfterDevices ds).tunnels_up ∧
    (fabricAfterDevices ds).sla_compliance = 100 := by
  unfold fabricAfterDevices
  refine ⟨?_, rfl, ?_⟩
  · show (ds.foldl deviceStep _).healthy_devices
        + (ds.foldl deviceStep _).warning_devices
        + (ds.foldl deviceStep _).critical_devices
      = (ds.foldl deviceStep _).total_devices
    rw [deviceFold_sum, deviceFold_total]
    show (0 : ℤ) + 0 + 0 + (ds.length : ℤ) = (ds.length : ℤ)
    ring
  · show (ds.foldl deviceStep _).sla_compliance = 100
    rw [deviceFold_sla]
    rfl

theorem fabricAfterAlarms_facts (ds : List DeviceHealth) (as : List Alarm) :
    (fabricAfterAlarms ds as).healthy_devices
        + (fabricAfterAlarms ds as).warning_devices
        + (fabricAfterAlarms ds as).critical_devices
      = (fabricAfterAlarms ds as).total_devices ∧
    (fabricAfterAlarms ds as).tunnels_down
      = (fabricAfterAlarms ds as).total_tunnels
        - (fabricAfterAlarms ds as).tunnels_up ∧
    (fabricAfterAlarms ds as).sla_compliance = 100 := by
  obtain ⟨e1, e2, e3, e4, e5, e6, e7, e8⟩ :=
    alarmFold_frame as
      { fabricAfterDevices ds with total_alarms := (as.length : ℤ) }
  obtain ⟨f1, f2, f3⟩ := fabricAfterDevices_facts ds
  unfold fabricAfterAlarms
  refine ⟨?_, ?_, ?_⟩
  · rw [e1, e2, e3, e4]; exact f1
  · rw [e7, e5, e6]; exact f2
  · rw [e8]; exact f3

theorem getFabricHealth_frame (ds : List DeviceHealth) (as : List Alarm)
    (now : ℚ) :
    (getFabricHealth ds as now).total_tunnels
      = (fabricAfterAlarms ds as).total_tunnels ∧
    (getFabricHealth ds as now).tunnels_up
      = (fabricAfterAlarms ds as).tunnels_up ∧
    (getFabricHealth ds as now).tunnels_down
      = (fabricAfterAlarms ds as).tunnels_down ∧
    (getFabricHealth ds as now).healthy_devices
      = (fabricAfterAlarms ds as).healthy_devices ∧
    (getFabricHealth ds as now).warning_devices
      = (fabricAfterAlarms ds as).warning_devices ∧
    (getFabricHealth ds as now).critical_devices
      = (fabricAfterAlarms ds as).critical_devices ∧
    (getFabricHealth ds as now).total_devices
      = (fabricAfterAlarms ds as).total_devices := by
  by_cases hc : 0 < (fabricAfterAlarms ds as).total_tunnels <;>
    simp [getFabricHealth, hc]

theorem getFabricHealth_sla (ds : List DeviceHealth) (as : List Alarm)
    (now : ℚ) :
    (getFabricHealth ds as now).sla_compliance
      = (if 0 < (fabricAfterAlarms ds as).total_tunnels then
           ((fabricAfterAlarms ds as).tunnels_up : ℚ)
             / ((fabricAfterAlarms ds as).total_tunnels : ℚ) * 100
         else (fabricAfterAlarms ds as).sla_compliance) := by
  by_cases hc : 0 < (fabricAfterAlarms ds as).total_tunnels <;>
    simp [getFabricHealth, hc]

/-- C1: the claim says every alert returned by `evaluate_device` *and* by
`evaluate_tunnel` is appended to both the active-alert and alert-history
collections.  This theorem evaluates the code at the failing input: on the
test-suite thresholds, `evaluate_tunnel` on the tunnel
`10.0.0.1 -> 10.0.0.2` with `loss = 8` (≥ the 5.0 critical threshold)
emits one alert that lands in `active_alerts` while `alert_history` stays
empty — the `evaluate_tunnel` append loop (lib/alerter.py lines 114-116)
never touches `alert_history`, unlike `evaluate_device`
(lines 86-89). -/
theorem C1_tunnel_alert_skips_history :
    ((evaluateTunnel thresholds0 tun8 0 AlertState.empty).1.length = 1) ∧
    ((evaluateTunnel thresholds0 tun8 0 AlertState.empty).2.active = [0]) ∧
    ((evaluateTunnel thresholds0 tun8 0 AlertState.empty).2.history
      = ([] : List Nat)) := by
  decide

/-- C2 counterexample: after `evaluate_device` puts one cpu-critical alert
into both collections (the *same* object, store id 0), `acknowledge_alert(0)`
sets that shared object's flag, so the corresponding history entry reads
`acknowledged = True` — the claim said the history entry keeps
`acknowledged = False`. -/
theorem C2_history_sees_ack :
    c2state.active = [0] ∧ c2state.history = [0] ∧
    (storeGet c2state.store 0).acknowledged = false ∧
    (storeGet (acknowledgeAlert c2state 0).store 0).acknowledged = true ∧
    (acknowledgeAlert c2state 0).history = [0] := by
  decide

/-- C2, amended: for a valid index, `acknowledge_alert` sets the
acknowledged flag of the alert object referenced at that active position;
since active and history hold references to the same store of objects, a
history entry that references the same object observes the flag change.
The reference lists themselves are untouched, and a subsequent
`clear_acknowledged` rebuilds only the active list, leaving history
unchanged. -/
theorem C2_ack_shared_object (st : AlertState) (index : ℤ) (sid : Nat)
    (h1 : 0 ≤ index) (h2 : index < (st.active.length : ℤ))
    (h3 : st.active.get? index.toNat = some sid)
    (h4 : sid < st.store.length) :
    (acknowledgeAlert st index).active = st.active ∧
    (acknowledgeAlert st index).history = st.history ∧
    (storeGet (acknowledgeAlert st index).store sid).acknowledged = true ∧
    (clearAcknowledged (acknowledgeAlert st index)).history = st.history := by
  have hcond : 0 ≤ index ∧ index < (st.active.length : ℤ) := ⟨h1, h2⟩
  have hstep : acknowledgeAlert st index =
      { st with store := st.store.set sid { storeGet st.store sid with acknowledged := true } } := by
    simp only [acknowledgeAlert, if_pos hcond, h3]
  rw [hstep]
  refine ⟨rfl, rfl, ?_, rfl⟩
  rw [storeGet_set_self _ _ _ h4]

/-- C2 witness: the amended statement holds at a concrete one-alert
state. -/
theorem C2_ack_shared_object_witness :
    (acknowledgeAlert oneAlertState 0).active = oneAlertState.active ∧
    (acknowledgeAlert oneAlertState 0).history = oneAlertState.history ∧
    (storeGet (acknowledgeAlert oneAlertState 0).store 0).acknowledged = true ∧
    (clearAcknowledged (acknowledgeAlert oneAlertState 0)).history
      = oneAlertState.history :=
  C2_ack_shared_object oneAlertState 0 0 (by decide) (by decide) (by rfl)
    (by decide)

/-- C3 counterexample: the classifier keys on `status`, not `reachability`:
a device whose `status` is `reachable` but whose `reachability` is
`unreachable` (with cpu = memory = 10, control connections satisfied)
classifies `healthy`, while the claim requires `critical` for every device
with `reachability ≠ reachable`. -/
theorem C3_reachability_ignored :
    dev3.reachability ≠ PyVal.vStr ("reachable") ∧
    dev3.cpu_percent = 10 ∧
    dev3.health_status = "healthy" ∧
    dev3.health_status ≠ "critical" := by
  decide

/-- C3, amended: rule 1 of `DeviceHealth.health_status` keys on the
`status` field: for every device whose `status` is not `"reachable"`, the
classifier returns `"critical"` regardless of cpu, memory and control
connection values.  (When the raw record lacks a distinct `status` key,
`get_devices` defaults `status` to the `reachability` value, and the
original claim coincides with this rule.) -/
theorem C3_status_rule_dominates (d : DeviceHealth)
    (h : d.status ≠ PyVal.vStr ("reachable")) :
    d.health_status = "critical" := by
  unfold DeviceHealth.health_status
  rw [if_pos h]

/-- C3 witness: a device with `status = "down"` and low cpu classifies
critical. -/
theorem C3_status_rule_dominates_witness :
    ({ dev3 with status := PyVal.vStr ("down") } : DeviceHealth).health_status
      = "critical" :=
  C3_status_rule_dominates { dev3 with status := PyVal.vStr ("down") }
    (by decide)

/-- C9: for an out-of-range index (negative or ≥ the active length),
`acknowledge_alert` is a no-op: the guard
`if 0 <= index < len(self.active_alerts)` fails, no exception is raised
(the function is total), and the whole alerter state — store, active list
and history list — is returned unchanged. -/
theorem C9_ack_out_of_range_noop (st : AlertState) (index : ℤ)
    (h : index < 0 ∨ (st.active.length : ℤ) ≤ index) :
    acknowledgeAlert st index = st := by
  unfold acknowledgeAlert
  rw [if_neg]
  rintro ⟨h1, h2⟩
  rcases h with h | h
  · exact absurd h1 (not_le.mpr h)
  · exact absurd h2 (not_lt.mpr h)

/-- C9 witness: both a negative and a too-large index leave a one-alert
state unchanged. -/
theorem C9_ack_out_of_range_noop_witness :
    acknowledgeAlert oneAlertState (-1) = oneAlertState ∧
    acknowledgeAlert oneAlertState 5 = oneAlertState :=
  ⟨C9_ack_out_of_range_noop oneAlertState (-1) (Or.inl (by decide)),
   C9_ack_out_of_range_noop oneAlertState 5 (Or.inr (by decide))⟩

/-- C4: whenever the configured cpu critical threshold `c` is present and
`device.cpu ≥ c`, `evaluate_device` (provided its memory check does not hit
the `KeyError` corner, `memKeysOk`) succeeds and its returned alert list
contains exactly one cpu alert: the critical one, with value `device.cpu`
and threshold `c` — the warning tier is skipped by the `elif`
(lib/alerter.py lines 50-61), so the two tiers are mutually exclusive per
metric per call. -/
theorem C4_cpu_critical_exclusive (t : Thresholds) (d : DeviceMetrics)
    (now : ℚ) (st : AlertState) (c : ℚ)
    (hc : (t.cpu.getD TierThresh.empty).critical = some c)
    (hge : c ≤ d.cpu)
    (hm : memKeysOk t d = true) :
    ∃ res, evaluateDevice t d now st = Except.ok res ∧
      res.1.filter (fun a => a.metric == "cpu") = [cpuCritAlert d c now] := by
  have hcpu : cpuCheck t d now = Except.ok [cpuCritAlert d c now] := by
    simp only [cpuCheck, hc, Option.getD_some]
    rw [if_pos hge]
    rfl
  obtain ⟨ms, hmem, hms⟩ := memCheck_ok t d now hm
  have hev : evaluateDevice t d now st
      = Except.ok ([cpuCritAlert d c now] ++ ms ++ reachCheck d now,
          pushBoth st ([cpuCritAlert d c now] ++ ms ++ reachCheck d now)) := by
    unfold evaluateDevice
    rw [hcpu, hmem]
    rfl
  refine ⟨_, hev, ?_⟩
  simp only [List.filter_append, hms, reachCheck_no_cpu, List.append_nil]
  simp [cpuCritAlert]

/-- C4 witness: the claim's own concrete scenario — test thresholds,
`cpu = 95`, `memory = 50`, reachable — yields exactly the single critical
cpu alert. -/
theorem C4_cpu_critical_exclusive_witness :
    ∃ res, evaluateDevice thresholds0 dev95 0 AlertState.empty
        = Except.ok res ∧
      res.1.filter (fun a => a.metric == "cpu") = [cpuCritAlert dev95 90 0] :=
  C4_cpu_critical_exclusive thresholds0 dev95 0 AlertState.empty 90
    (by rfl) (by decide) (by decide)

/-- C5 counterexample: the cache key `devices` holds `["vedge-1"]` fetched
at time 0; at time 100 (TTL 30 expired) the fetcher "fails upstream" and —
as `VManageAPI.get_devices` does on any error — returns the empty list.
`_get_cached` stores and returns that empty list with a fresh timestamp,
instead of retaining and returning the stale `["vedge-1"]` as the claim
requires. -/
theorem C5_failed_fetch_overwrites :
    getCached c5cache ("devices") none 100 (Except.ok ([] : List String))
      = Except.ok (([] : List String), true,
          ⟨[("devices", ([] : List String))], [("devices", (100 : ℚ))]⟩) ∧
    (["vedge-1"] : List String) ≠ ([] : List String) := by
  constructor
  · norm_num [getCached, c5cache, dictGet?, dictSet, ttlResolve]
  · decide

/-- C5, amended: once the TTL has expired for a present key, the fetch
result — including the empty/default value the wrapped fetchers return
when the upstream yields no data — replaces the cached value and timestamp
and is returned to the caller; only a fetcher that *raises* leaves the
cached entry unchanged, and then the exception propagates out of
`_get_cached` (there is no try/except in it). -/
theorem C5_stale_refresh_behavior {V : Type} (st : CacheState V)
    (key : String) (ttlArg : Option ℚ) (now : ℚ) (vOld vNew : V) (e : String)
    (hold : dictGet? st.cache key = some vOld)
    (hstale : ttlResolve ttlArg ≤ now - (dictGet? st.ctime key).getD 0) :
    getCached st key ttlArg now (Except.ok vNew)
      = Except.ok (vNew, true,
          ⟨dictSet st.cache key vNew, dictSet st.ctime key now⟩) ∧
    getCached st key ttlArg now (Except.error e) = Except.error e := by
  have hnot : ¬ now - (dictGet? st.ctime key).getD 0 < ttlResolve ttlArg :=
    not_lt.mpr hstale
  constructor <;> simp [getCached, hold, hnot]

/-- C5 witness: the amended behavior at the concrete stale cache. -/
theorem C5_stale_refresh_behavior_witness :
    getCached c5cache ("devices") none 100 (Except.ok (["vedge-2"]))
      = Except.ok ((["vedge-2"] : List String), true,
          ⟨dictSet c5cache.cache ("devices") ["vedge-2"],
           dictSet c5cache.ctime ("devices") 100⟩) ∧
    getCached c5cache ("devices") none 100
        (Except.error ("ConnectionError"))
      = Except.error ("ConnectionError") :=
  C5_stale_refresh_behavior c5cache ("devices") none 100 ["vedge-1"]
    ["vedge-2"] ("ConnectionError") (by rfl)
    (by norm_num [c5cache, dictGet?, ttlResolve])

/-- C6: starting from a cache with no entry for `key`, a first
`_get_cached` call invokes the fetcher (flag `true`) and stores its value;
a second call whose clock lies within the resolved TTL window returns the
same value from the cache with the fetcher *not* invoked (flag `false`,
and the second call's would-be fetch outcome `fr2` is irrelevant — it may
even be a failure); the cache state is unchanged by the second call. -/
theorem C6_second_call_within_ttl_cached {V : Type} (st : CacheState V)
    (key : String) (ttlArg : Option ℚ) (now1 now2 : ℚ) (v : V)
    (fr2 : Except String V)
    (hmiss : dictGet? st.cache key = none)
    (h1 : 0 ≤ now2 - now1) (h2 : now2 - now1 < ttlResolve ttlArg) :
    getCached st key ttlArg now1 (Except.ok v)
      = Except.ok (v, true,
          ⟨dictSet st.cache key v, dictSet st.ctime key now1⟩) ∧
    getCached ⟨dictSet st.cache key v, dictSet st.ctime key now1⟩ key
        ttlArg now2 fr2
      = Except.ok (v, false,
          ⟨dictSet st.cache key v, dictSet st.ctime key now1⟩) := by
  constructor
  · simp [getCached, hmiss]
  · have hv := dictGet?_dictSet_self st.cache key v
    have ht := dictGet?_dictSet_self st.ctime key now1
    simp only [getCached, hv, ht, Option.getD_some]
    rw [if_pos h2]

/-- C6 witness: a concrete fresh cache; the second call at time 10 (TTL 30)
returns 42 from cache even though its fetcher would have failed. -/
theorem C6_second_call_within_ttl_cached_witness :
    getCached (⟨[], []⟩ : CacheState ℚ) ("devices") none 0 (Except.ok 42)
      = Except.ok ((42 : ℚ), true,
          ⟨dictSet ([] : List (String × ℚ)) ("devices") 42,
           dictSet ([] : List (String × ℚ)) ("devices") 0⟩) ∧
    getCached
        (⟨dictSet ([] : List (String × ℚ)) ("devices") 42,
          dictSet ([] : List (String × ℚ)) ("devices") 0⟩ : CacheState ℚ)
        ("devices") none 10 (Except.error ("Timeout"))
      = Except.ok ((42 : ℚ), false,
          ⟨dictSet ([] : List (String × ℚ)) ("devices") 42,
           dictSet ([] : List (String × ℚ)) ("devices") 0⟩) :=
  C6_second_call_within_ttl_cached ⟨[], []⟩ ("devices") none 0 10 42
    (Except.error ("Timeout")) (by rfl) (by norm_num)
    (by norm_num [ttlResolve])

/-- C7 counterexample: a raw device record whose `cpu-load` is the
non-numeric, non-empty string `"abc"` makes the normalization in
`get_devices` raise `ValueError` (the `... or 0` guard only catches falsy
values, and `float("abc")` raises), instead of treating the coercion
failure as zero — the claim said normalization never raises. -/
theorem C7_bad_string_raises :
    normalizeDevice rawBad [] 0 = Except.error ("ValueError") := by
  rfl

/-- C7, amended: normalization never raises *provided* each numeric field
is absent, falsy, or numerically parseable (`numericOk`); missing fields
then get their documented defaults (`hostname = "Unknown"`,
`reachability = "unknown"`, numeric fields 0,
`control_connections_expected = 2`).  A numeric field holding a non-falsy
non-numeric string, however, raises `ValueError`, which propagates out of
the normalization pass. -/
theorem C7_default_fill (raw status : PyDict) (now : ℚ)
    (h : numericOk raw status = true) :
    ∃ d, normalizeDevice raw status now = Except.ok d ∧
      (dictGet? raw ("host-name") = none → dictGet? raw ("hostname") = none →
        d.hostname = PyVal.vStr ("Unknown")) ∧
      (dictGet? raw ("reachability") = none →
        d.reachability = PyVal.vStr ("unknown")) ∧
      (dictGet? status ("cpuLoad") = none →
        dictGet? raw ("cpu-load") = none → d.cpu_percent = 0) ∧
      d.control_connections_expected = 2 := by
  unfold numericOk at h
  simp only [Bool.and_eq_true] at h
  obtain ⟨⟨⟨⟨⟨hf1, hf2⟩, hf3⟩, hf4⟩, hf5⟩, hf6⟩ := h
  obtain ⟨v1, e1⟩ := exceptOk_of_isOk _ hf1
  obtain ⟨v2, e2⟩ := exceptOk_of_isOk _ hf2
  obtain ⟨v3, e3⟩ := exceptOk_of_isOk _ hf3
  obtain ⟨v4, e4⟩ := exceptOk_of_isOk _ hf4
  obtain ⟨v5, e5⟩ := exceptOk_of_isOk _ hf5
  obtain ⟨v6, e6⟩ := exceptOk_of_isOk _ hf6
  refine ⟨{ device_id := dget raw ("deviceId") (dget raw ("system-ip") (PyVal.vStr "")),
            hostname := dget raw ("host-name") (dget raw ("hostname") (PyVal.vStr ("Unknown"))),
            site_id := pyStr (dget raw ("site-id") (PyVal.vStr "")),
            status := dget raw ("status") (dget raw ("reachability") (PyVal.vStr ("unknown"))),
            reachability := dget raw ("reachability") (PyVal.vStr ("unknown")),
            cpu_percent := v1, memory_percent := v2, disk_percent := v3,
            control_connections := v4, control_connections_expected := 2,
            tunnels_up := v5, tunnels_total := v6,
            uptime := dget raw ("uptime-date") (dget raw ("uptime") (PyVal.vStr "")),
            version := dget raw ("version") (PyVal.vStr ""),
            model := dget raw ("device-model") (dget raw ("model") (PyVal.vStr "")),
            board_serial := dget raw ("board-serial") (dget raw ("serialNumber") (PyVal.vStr "")),
            last_updated := now }, ?_, ?_, ?_, ?_, rfl⟩
  · simp only [normalizeDevice]
    rw [e1, e2, e3, e4, e5, e6]
    rfl
  · intro hn1 hn2
    simp [dget, hn1, hn2]
  · intro hr
    simp [dget, hr]
  · intro hs hr
    have hz : pyFloat (pyOr (dget status ("cpuLoad")
        (dget raw ("cpu-load") (PyVal.vNum 0))) (PyVal.vNum 0))
        = Except.ok 0 := by
      simp [dget, hs, hr, pyOr, pyTruthy, pyFloat]
    rw [e1] at hz
    exact Except.ok.inj hz

/-- C7 witness: the fully-empty raw record normalizes successfully with
all documented defaults. -/
theorem C7_default_fill_witness :
    ∃ d, normalizeDevice [] [] 0 = Except.ok d ∧
      (dictGet? ([] : PyDict) ("host-name") = none →
        dictGet? ([] : PyDict) ("hostname") = none →
        d.hostname = PyVal.vStr ("Unknown")) ∧
      (dictGet? ([] : PyDict) ("reachability") = none →
        d.reachability = PyVal.vStr ("unknown")) ∧
      (dictGet? ([] : PyDict) ("cpuLoad") = none →
        dictGet? ([] : PyDict) ("cpu-load") = none → d.cpu_percent = 0) ∧
      d.control_connections_expected = 2 :=
  C7_default_fill [] [] 0 (by decide)

/-- C8: `get_fabric_health` leaves `sla_compliance` at its dataclass
default 100.0 when `total_tunnels = 0` (the `if health.total_tunnels > 0`
guard skips the division), and sets it to
`tunnels_up / total_tunnels * 100` whenever `total_tunnels > 0`. -/
theorem C8_sla_formula (devices : List DeviceHealth) (alarms : List Alarm)
    (now : ℚ) :
    ((getFabricHealth devices alarms now).total_tunnels = 0 →
      (getFabricHealth devices alarms now).sla_compliance = 100) ∧
    (0 < (getFabricHealth devices alarms now).total_tunnels →
      (getFabricHealth devices alarms now).sla_compliance
        = ((getFabricHealth devices alarms now).tunnels_up : ℚ)
          / ((getFabricHealth devices alarms now).total_tunnels : ℚ)
          * 100) := by
  obtain ⟨ht, hu, _, _, _, _, _⟩ := getFabricHealth_frame devices alarms now
  obtain ⟨_, _, hsla⟩ := fabricAfterAlarms_facts devices alarms
  rw [getFabricHealth_sla, ht, hu]
  constructor
  · intro h0
    rw [if_neg (by omega)]
    exact hsla
  · intro hp
    rw [if_pos hp]

/-- C8 witness: a fabric with one device reporting 842 of 847 tunnels up
takes the division branch (the quotient 842/847 × 100 ≈ 99.41). -/
theorem C8_sla_formula_witness :
    0 < (getFabricHealth [devTun] [] 0).total_tunnels ∧
    (getFabricHealth [devTun] [] 0).sla_compliance
      = ((getFabricHealth [devTun] [] 0).tunnels_up : ℚ)
        / ((getFabricHealth [devTun] [] 0).total_tunnels : ℚ) * 100 :=
  ⟨by decide, (C8_sla_formula [devTun] [] 0).2 (by decide)⟩

/-- C10: in every `FabricHealth` summary produced by `get_fabric_health`,
the classification counts partition the device set
(`healthy + warning + critical = total_devices`, since `health_status`
always returns exactly one of the three statuses and the loop increments
the matching counter), and `tunnels_down = total_tunnels - tunnels_up`,
hence `tunnels_up + tunnels_down = total_tunnels`. -/
theorem C10_counts_partition (devices : List DeviceHealth)
    (alarms : List Alarm) (now : ℚ) :
    (getFabricHealth devices alarms now).healthy_devices
        + (getFabricHealth devices alarms now).warning_devices
        + (getFabricHealth devices alarms now).critical_devices
      = (getFabricHealth devices alarms now).total_devices ∧
    (getFabricHealth devices alarms now).tunnels_down
      = (getFabricHealth devices alarms now).total_tunnels
        - (getFabricHealth devices alarms now).tunnels_up ∧
    (getFabricHealth devices alarms now).tunnels_up
        + (getFabricHealth devices alarms now).tunnels_down
      = (getFabricHealth devices alarms now).total_tunnels := by
  obtain ⟨ht, hu, hd, hh, hw, hc, htd⟩ :=
    getFabricHealth_frame devices alarms now
  obtain ⟨hsum, hdown, _⟩ := fabricAfterAlarms_facts devices alarms
  rw [ht, hu, hd, hh, hw, hc, htd]
  exact ⟨hsum, hdown, by omega⟩
